import Mathlib

/-!
Verification of the BAC (blood-alcohol-content) estimation engine of the
bacLevelApp repository.  The Python sources `bac_calculator.py` and
`real_time_monitor.py` are shallowly embedded below: machine floats are
modelled by exact rationals, Python `None`-able values by `Option`, and the
mutable monitor object by an explicit state record.  Each theorem in the
second half of the file settles one claim about this embedding.
-/

/-- A drink record, as stored in the drink database and the drink log
(`bac_calculator.py`, `drink_database` entries and `add_drink` results):
a percentage of alcohol and a volume in fluid ounces. -/
structure Drink where
  alcohol_percent : ℚ
  volume_oz : ℚ
deriving DecidableEq

/-- The two sexes handled by the Widmark-factor selection in
`calculate_bac_widmark` (`gender.lower() == 'male'` picks the male factor,
anything else the female factor; claims only concern these two values). -/
inductive Gender where
  | male
  | female
deriving DecidableEq

/-- `self.male_widmark_factor = 0.68` (`bac_calculator.py` line 13). -/
def male_widmark_factor : ℚ := 68/100

/-- `self.female_widmark_factor = 0.55` (`bac_calculator.py` line 14). -/
def female_widmark_factor : ℚ := 55/100

/-- `self.metabolism_rate = 0.015` BAC per hour (`bac_calculator.py` line 17). -/
def metabolism_rate : ℚ := 15/1000

/-- The Widmark factor chosen for a gender (`bac_calculator.py` line 54). -/
def widmark_factor : Gender → ℚ
  | Gender.male => male_widmark_factor
  | Gender.female => female_widmark_factor

/-- `self.drink_database` (`bac_calculator.py` lines 20-25): the four built-in
standard drinks; any other type string is absent (`none`). -/
def drink_database : String → Option Drink
  | "beer" => some { alcohol_percent := 5, volume_oz := 12 }
  | "wine" => some { alcohol_percent := 12, volume_oz := 5 }
  | "liquor" => some { alcohol_percent := 40, volume_oz := 3/2 }
  | "cocktail" => some { alcohol_percent := 15, volume_oz := 8 }
  | _ => none

/-- `volume_ml = drink['volume_oz'] * 29.5735` (`bac_calculator.py` line 48). -/
def volume_ml (d : Drink) : ℚ := d.volume_oz * (295735/10000)

/-- `alcohol_ml = volume_ml * (drink['alcohol_percent'] / 100)`
(`bac_calculator.py` line 49). -/
def alcohol_ml (d : Drink) : ℚ := volume_ml d * (d.alcohol_percent / 100)

/-- `alcohol_grams = alcohol_ml * 0.789` (`bac_calculator.py` line 50). -/
def alcohol_grams (d : Drink) : ℚ := alcohol_ml d * (789/1000)

/-- The accumulation loop `total_alcohol_grams += alcohol_grams`
(`bac_calculator.py` lines 43-51), as a left fold starting from 0. -/
def total_alcohol_grams (drinks : List Drink) : ℚ :=
  drinks.foldl (fun acc d => acc + alcohol_grams d) 0

/-- `weight_grams = weight_lbs * 453.592` (`bac_calculator.py` line 40). -/
def weight_grams (weight_lbs : ℚ) : ℚ := weight_lbs * (453592/1000)

/-- `peak_bac = (total_alcohol_grams / (widmark_factor * weight_grams)) * 100`
(`bac_calculator.py` line 59). -/
def peak_bac (weight_lbs : ℚ) (g : Gender) (drinks : List Drink) : ℚ :=
  total_alcohol_grams drinks / (widmark_factor g * weight_grams weight_lbs) * 100

/-- `calculate_bac_widmark` (`bac_calculator.py` lines 27-73): two-phase
curve — a linear ramp to `peak_bac` while `hours ≤ 0.5`, then linear
elimination at `metabolism_rate`; the result is clamped with `max(0, bac)`. -/
def calculate_bac_widmark (weight_lbs : ℚ) (g : Gender) (drinks : List Drink)
    (hours_since_first_drink : ℚ) : ℚ :=
  let pb := peak_bac weight_lbs g drinks
  let bac :=
    if hours_since_first_drink ≤ 1/2 then
      pb * (hours_since_first_drink / (1/2))
    else
      pb - metabolism_rate * (hours_since_first_drink - 1/2)
  max 0 bac

/-- The impairment tiers, the `'level'` field of the dictionaries returned by
`get_bac_effects` (`bac_calculator.py` lines 108-146). -/
inductive Level where
  | Sober
  | MildImpairment
  | ModerateImpairment
  | HighImpairment
  | SevereImpairment
deriving DecidableEq

/-- The tier selection of `get_bac_effects` (`bac_calculator.py` lines
108-146): the chain `bac < 0.02`, `bac < 0.05`, `bac < 0.08`, `bac < 0.15`,
else severe. -/
def bac_level (bac : ℚ) : Level :=
  if bac < 2/100 then Level.Sober
  else if bac < 5/100 then Level.MildImpairment
  else if bac < 8/100 then Level.ModerateImpairment
  else if bac < 15/100 then Level.HighImpairment
  else Level.SevereImpairment

/-- `calculate_sober_time` (`bac_calculator.py` lines 148-156): 0 when the
BAC is non-positive, else `current_bac / metabolism_rate`. -/
def calculate_sober_time (current_bac : ℚ) : ℚ :=
  if current_bac ≤ 0 then 0 else current_bac / metabolism_rate

/-- Python truthiness of an optional float argument: `if volume_oz:` is taken
for a value that is present and non-zero. -/
def truthy : Option ℚ → Bool
  | none => false
  | some v => v != 0

/-- `add_drink` (`bac_calculator.py` lines 158-174): a known type copies its
database entry and overwrites each field whose override is truthy; an unknown
type builds a custom drink from `alcohol_percent or 5.0` and
`volume_oz or 12.0`. -/
def add_drink (drink_type : String) (volume_oz alcohol_percent : Option ℚ) :
    Drink :=
  match drink_database drink_type with
  | some base =>
    let d1 :=
      if truthy volume_oz then
        { base with volume_oz := volume_oz.getD base.volume_oz }
      else base
    if truthy alcohol_percent then
      { d1 with alcohol_percent := alcohol_percent.getD d1.alcohol_percent }
    else d1
  | none =>
    { alcohol_percent := if truthy alcohol_percent then alcohol_percent.getD 5 else 5
      volume_oz := if truthy volume_oz then volume_oz.getD 12 else 12 }

/-- The alert levels of `real_time_monitor.py` (`alert_thresholds` keys,
lines 79-83). -/
inductive AlertLevel where
  | warning
  | danger
  | critical
deriving DecidableEq

/-- The alert-throttling state of `RealTimeBACMonitor` (`real_time_monitor.py`
lines 86-88): `last_alert_level`, `last_alert_time` (both `None` initially)
and `alert_cooldown` (seconds, 30 initially).  Timestamps are rationals
measured in seconds. -/
structure AlertState where
  last_alert_level : Option AlertLevel
  last_alert_time : Option ℚ
  alert_cooldown : ℚ
deriving DecidableEq

/-- The threshold comparison chain of `_check_alerts` (`real_time_monitor.py`
lines 183-189): `critical` at BAC ≥ 0.15, `danger` at ≥ 0.08, `warning` at
≥ 0.05, otherwise no alert level. -/
def current_alert_level (bac : ℚ) : Option AlertLevel :=
  if 15/100 ≤ bac then some AlertLevel.critical
  else if 8/100 ≤ bac then some AlertLevel.danger
  else if 5/100 ≤ bac then some AlertLevel.warning
  else none

/-- `not self.last_alert_time or (current_time - self.last_alert_time)
.total_seconds() > self.alert_cooldown` (`real_time_monitor.py` lines
200-201). -/
def cooldown_passed (st : AlertState) (now : ℚ) : Bool :=
  match st.last_alert_time with
  | none => true
  | some t => decide (st.alert_cooldown < now - t)

/-- `_check_alerts` (`real_time_monitor.py` lines 177-215) restricted to the
alert state it reads and writes: computes the current level, decides
`should_alert`, and fires — updating `last_alert_level` and
`last_alert_time` — only when `should_alert and current_alert_level` holds;
otherwise the state is returned unchanged.  The first component reports
whether an alert was sent. -/
def check_alerts (st : AlertState) (now bac : ℚ) : Bool × AlertState :=
  let cur := current_alert_level bac
  let should_alert : Bool :=
    if cur ≠ st.last_alert_level then true
    else if cur.isSome && cooldown_passed st now then true
    else false
  if should_alert && cur.isSome then
    (true, { st with last_alert_level := cur, last_alert_time := some now })
  else
    (false, st)

/-- One recorded data point of the monitor histories (`real_time_monitor.py`
lines 117-124). -/
structure DataPoint where
  timestamp : ℚ
  bac : ℚ
  heart_rate : ℚ
  skin_conductance : ℚ
  temperature : ℚ
deriving DecidableEq

/-- The state of `RealTimeBACMonitor` (`real_time_monitor.py` lines 55-88)
that the session operations read and write: the profile, the drink log and
its first/last timestamps, the current BAC, the two histories, the running
flag, the alert state, and the simulator's current sensor readings. -/
structure MonitorState where
  weight_lbs : ℚ
  gender : Gender
  drinks : List Drink
  first_drink_time : Option ℚ
  last_drink_time : Option ℚ
  current_bac : ℚ
  bac_history : List DataPoint
  sensor_history : List DataPoint
  is_monitoring : Bool
  last_alert_level : Option AlertLevel
  last_alert_time : Option ℚ
  alert_cooldown : ℚ
  current_heart_rate : ℚ
  current_skin_conductance : ℚ
  current_temperature : ℚ
deriving DecidableEq

/-- `RealTimeBACMonitor.__init__` (`real_time_monitor.py` lines 55-88)
together with `SensorSimulator.__init__` (lines 17-26): empty drink log and
histories, zero BAC, no alert history, cooldown 30 seconds, sensors at their
baselines. -/
def initial_state (weight_lbs : ℚ) (g : Gender) : MonitorState where
  weight_lbs := weight_lbs
  gender := g
  drinks := []
  first_drink_time := none
  last_drink_time := none
  current_bac := 0
  bac_history := []
  sensor_history := []
  is_monitoring := false
  last_alert_level := none
  last_alert_time := none
  alert_cooldown := 30
  current_heart_rate := 70
  current_skin_conductance := 5
  current_temperature := 986/10

/-- `reset_session` (`real_time_monitor.py` lines 263-273): clears the drink
log, both drink timestamps, the current BAC, both histories, and the last
alert level and time.  No other attribute is assigned. -/
def reset_session (st : MonitorState) : MonitorState :=
  { st with
    drinks := []
    first_drink_time := none
    last_drink_time := none
    current_bac := 0
    bac_history := []
    sensor_history := []
    last_alert_level := none
    last_alert_time := none }

/-- `set_alert_cooldown` (`real_time_monitor.py` lines 288-291). -/
def set_alert_cooldown (st : MonitorState) (seconds : ℚ) : MonitorState :=
  { st with alert_cooldown := seconds }

/-- The status snapshot returned by `get_current_status`
(`real_time_monitor.py` lines 239-255), with the effects dictionary
represented by its tier. -/
structure Status where
  bac : ℚ
  level : Level
  sober_time_hours : ℚ
  drinks_count : ℕ
  time_since_last_drink : ℚ
deriving DecidableEq

/-- `get_current_status` (`real_time_monitor.py` lines 239-255): a read-only
snapshot of the current BAC, its tier, the sober-time estimate, the drink
count, and minutes since the last drink (0 when there is none). -/
def get_current_status (st : MonitorState) (now : ℚ) : Status where
  bac := st.current_bac
  level := bac_level st.current_bac
  sober_time_hours := calculate_sober_time st.current_bac
  drinks_count := st.drinks.length
  time_since_last_drink :=
    match st.last_drink_time with
    | some t => (now - t) / 60
    | none => 0

/-- The four display branches of `check_alerts_manually`
(`real_time_monitor.py` lines 279-286). -/
inductive ManualAlert where
  | critical_alert
  | danger_alert
  | warning_alert
  | safe
deriving DecidableEq

/-- `check_alerts_manually` (`real_time_monitor.py` lines 275-286): compares
the current BAC against the alert thresholds and displays one of four
messages.  The method performs no assignment, so the state component of the
result is the input state. -/
def check_alerts_manually (st : MonitorState) : ManualAlert × MonitorState :=
  let category :=
    if 15/100 ≤ st.current_bac then ManualAlert.critical_alert
    else if 8/100 ≤ st.current_bac then ManualAlert.danger_alert
    else if 5/100 ≤ st.current_bac then ManualAlert.warning_alert
    else ManualAlert.safe
  (category, st)

/-- The alert-throttle fields of a monitor state, as read by
`_check_alerts`. -/
def alert_state_of (st : MonitorState) : AlertState where
  last_alert_level := st.last_alert_level
  last_alert_time := st.last_alert_time
  alert_cooldown := st.alert_cooldown

/-- `_check_alerts` (`real_time_monitor.py` lines 177-215) acting on the full
monitor state: it evaluates the throttle on the monitor's own alert fields
and current BAC, writing back the updated alert fields. -/
def monitor_check_alerts (st : MonitorState) (now : ℚ) : Bool × MonitorState :=
  let r := check_alerts (alert_state_of st) now st.current_bac
  (r.1, { st with
          last_alert_level := r.2.last_alert_level
          last_alert_time := r.2.last_alert_time })

/-- Total grams of ethanol as the specification words it: the sum over the
drink list of `volumeOz × 29.5735 × (alcoholPercent/100) × 0.789`.  Written
from the spec, to be compared with `total_alcohol_grams` from the source. -/
def spec_total_grams (drinks : List Drink) : ℚ :=
  (drinks.map (fun d =>
    d.volume_oz * (295735/10000) * (d.alcohol_percent / 100) * (789/1000))).sum

/-- The distribution factor as the specification words it: 0.68 for male and
0.55 for female.  Written from the spec. -/
def spec_r : Gender → ℚ
  | Gender.male => 68/100
  | Gender.female => 55/100

/-- Peak BAC as the specification words it:
`(totalGrams / (ratio × weightLbs × 453.592)) × 100`.  Written from the
spec, to be compared with `peak_bac` from the source. -/
def spec_peak_bac (weight_lbs : ℚ) (g : Gender) (drinks : List Drink) : ℚ :=
  spec_total_grams drinks / (spec_r g * weight_lbs * (453592/1000)) * 100

/-! ## Helper lemmas -/

/-- Unrolling the accumulation loop of `calculate_bac_widmark`: a left fold of
additions equals the initial accumulator plus the sum of the per-drink
grams. -/
lemma foldl_add_alcohol_grams (l : List Drink) (a : ℚ) :
    l.foldl (fun acc d => acc + alcohol_grams d) a = a + (l.map alcohol_grams).sum := by
  induction l generalizing a with
  | nil => simp
  | cons d l ih => simp [List.foldl, ih, add_assoc]

/-- The source's accumulation loop computes exactly the sum the specification
describes. -/
lemma total_alcohol_grams_eq_spec (l : List Drink) :
    total_alcohol_grams l = spec_total_grams l := by
  rw [total_alcohol_grams, foldl_add_alcohol_grams, zero_add, spec_total_grams]
  congr 1

/-- The source's peak BAC equals the specification's formula
`(totalGrams / (ratio × weightLbs × 453.592)) × 100`. -/
lemma peak_bac_eq_spec (w : ℚ) (g : Gender) (l : List Drink) :
    peak_bac w g l = spec_peak_bac w g l := by
  rw [peak_bac, spec_peak_bac, total_alcohol_grams_eq_spec]
  cases g <;>
    simp [widmark_factor, spec_r, male_widmark_factor, female_widmark_factor,
      weight_grams, mul_assoc]

lemma widmark_factor_pos (g : Gender) : 0 < widmark_factor g := by
  cases g <;>
    norm_num [widmark_factor, male_widmark_factor, female_widmark_factor]

lemma peak_bac_pos {w : ℚ} (g : Gender) {l : List Drink} (hw : 0 < w)
    (hd : 0 < total_alcohol_grams l) : 0 < peak_bac w g l := by
  have hden : 0 < widmark_factor g * weight_grams w := by
    refine mul_pos (widmark_factor_pos g) ?_
    unfold weight_grams
    positivity
  unfold peak_bac
  have := div_pos hd hden
  positivity

/-! ## Claims -/

/-- Claim C4: for every profile, every drink list and every elapsed time
(negative included), `calculate_bac_widmark` returns a value ≥ 0: the final
`max(0, bac)` clamp guarantees it. -/
theorem widmark_nonneg (w : ℚ) (g : Gender) (drinks : List Drink) (t : ℚ) :
    0 ≤ calculate_bac_widmark w g drinks t :=
  le_max_left 0 _

/-- Claim C1: for weight > 0, either sex, any drink list and elapsed hours
≥ 0, the Widmark estimator returns `peakBac * (t / 0.5)` for `t ≤ 0.5` and
`peakBac - 0.015 * (t - 0.5)` for `t > 0.5`, clamped below at 0, where
`peakBac` and the total grams of ethanol are as the specification words
them. -/
theorem widmark_two_phase_eq (w : ℚ) (g : Gender) (drinks : List Drink)
    (t : ℚ) (hw : 0 < w) (ht : 0 ≤ t) :
    (t ≤ 1/2 →
      calculate_bac_widmark w g drinks t =
        max 0 (spec_peak_bac w g drinks * (t / (1/2)))) ∧
    (1/2 < t →
      calculate_bac_widmark w g drinks t =
        max 0 (spec_peak_bac w g drinks - (15/1000) * (t - 1/2))) := by
  constructor
  · intro h
    simp only [calculate_bac_widmark, peak_bac_eq_spec]
    rw [if_pos h]
  · intro h
    simp only [calculate_bac_widmark, peak_bac_eq_spec, metabolism_rate]
    rw [if_neg (not_le.mpr h)]

/-- Witness for C1 at the concrete profile 133 lbs / female, one 12oz 5%
drink, at the phase boundary. -/
theorem widmark_two_phase_eq_witness :
    calculate_bac_widmark 133 Gender.female
        [{ alcohol_percent := 5, volume_oz := 12 }] (1/2) =
      max 0 (spec_peak_bac 133 Gender.female
        [{ alcohol_percent := 5, volume_oz := 12 }] * ((1/2) / (1/2))) :=
  (widmark_two_phase_eq 133 Gender.female
    [{ alcohol_percent := 5, volume_oz := 12 }] (1/2)
    (by norm_num) (by norm_num)).1 (by norm_num)

/-- Counterexample to claim C2: at 133 lbs / female with one 12oz 5% drink
and elapsed 0.5 h, the returned BAC is not within 0.01 of the claimed 0.026
(it is ≈ 0.0422). -/
theorem widmark_one_beer_not_approx_0026 :
    1/100 < |calculate_bac_widmark 133 Gender.female
      [{ alcohol_percent := 5, volume_oz := 12 }] (1/2) - 26/1000| := by
  norm_num [calculate_bac_widmark, peak_bac, total_alcohol_grams,
    alcohol_grams, alcohol_ml, volume_ml, weight_grams, widmark_factor,
    female_widmark_factor, metabolism_rate, List.foldl, abs]

/-- Amended claim C2: the scenario returns `peak_bac` itself (the boundary of
the absorption phase) and its value is approximately 0.042, within 0.001. -/
theorem widmark_one_beer_value :
    calculate_bac_widmark 133 Gender.female
        [{ alcohol_percent := 5, volume_oz := 12 }] (1/2) =
      peak_bac 133 Gender.female [{ alcohol_percent := 5, volume_oz := 12 }] ∧
    |calculate_bac_widmark 133 Gender.female
        [{ alcohol_percent := 5, volume_oz := 12 }] (1/2) - 42/1000| < 1/1000 := by
  constructor <;>
    norm_num [calculate_bac_widmark, peak_bac, total_alcohol_grams,
      alcohol_grams, alcohol_ml, volume_ml, weight_grams, widmark_factor,
      female_widmark_factor, metabolism_rate, List.foldl, abs]

/-- Claim C7: the built-in beer, liquor and wine database entries each
convert to within 0.1 g of 14 g of ethanol. -/
theorem standard_drinks_fourteen_grams :
    drink_database ("beer") = some { alcohol_percent := 5, volume_oz := 12 } ∧
    drink_database ("liquor") = some { alcohol_percent := 40, volume_oz := 3/2 } ∧
    drink_database ("wine") = some { alcohol_percent := 12, volume_oz := 5 } ∧
    |alcohol_grams { alcohol_percent := 5, volume_oz := 12 } - 14| ≤ 1/10 ∧
    |alcohol_grams { alcohol_percent := 40, volume_oz := 3/2 } - 14| ≤ 1/10 ∧
    |alcohol_grams { alcohol_percent := 12, volume_oz := 5 } - 14| ≤ 1/10 := by
  refine ⟨rfl, rfl, rfl, ?_, ?_, ?_⟩ <;>
    norm_num [alcohol_grams, alcohol_ml, volume_ml, abs]

lemma bac_level_sober_iff (bac : ℚ) :
    bac_level bac = Level.Sober ↔ bac < 2/100 := by
  unfold bac_level
  split_ifs <;> simp <;>
    first
      | linarith
      | (constructor <;> linarith)
      | (intro h5; linarith)

lemma bac_level_mild_iff (bac : ℚ) :
    bac_level bac = Level.MildImpairment ↔ 2/100 ≤ bac ∧ bac < 5/100 := by
  unfold bac_level
  split_ifs <;> simp <;>
    first
      | linarith
      | (constructor <;> linarith)
      | (intro h5; linarith)

lemma bac_level_moderate_iff (bac : ℚ) :
    bac_level bac = Level.ModerateImpairment ↔ 5/100 ≤ bac ∧ bac < 8/100 := by
  unfold bac_level
  split_ifs <;> simp <;>
    first
      | linarith
      | (constructor <;> linarith)
      | (intro h5; linarith)

lemma bac_level_high_iff (bac : ℚ) :
    bac_level bac = Level.HighImpairment ↔ 8/100 ≤ bac ∧ bac < 15/100 := by
  unfold bac_level
  split_ifs <;> simp <;>
    first
      | linarith
      | (constructor <;> linarith)
      | (intro h5; linarith)

lemma bac_level_severe_iff (bac : ℚ) :
    bac_level bac = Level.SevereImpairment ↔ 15/100 ≤ bac := by
  unfold bac_level
  split_ifs <;> simp <;>
    first
      | linarith
      | (constructor <;> linarith)
      | (intro h5; linarith)

/-- Claim C8: the effect classifier realises the half-open intervals
[0, 0.02), [0.02, 0.05), [0.05, 0.08), [0.08, 0.15), [0.15, ∞), and in
particular maps 0.019999, 0.02, 0.079999 and 0.08 to Sober, Mild, Moderate
and High impairment respectively. -/
theorem bac_level_half_open (bac : ℚ) (h : 0 ≤ bac) :
    ((bac_level bac = Level.Sober ↔ bac < 2/100) ∧
     (bac_level bac = Level.MildImpairment ↔ 2/100 ≤ bac ∧ bac < 5/100) ∧
     (bac_level bac = Level.ModerateImpairment ↔ 5/100 ≤ bac ∧ bac < 8/100) ∧
     (bac_level bac = Level.HighImpairment ↔ 8/100 ≤ bac ∧ bac < 15/100) ∧
     (bac_level bac = Level.SevereImpairment ↔ 15/100 ≤ bac)) ∧
    bac_level (19999/1000000) = Level.Sober ∧
    bac_level (2/100) = Level.MildImpairment ∧
    bac_level (79999/1000000) = Level.ModerateImpairment ∧
    bac_level (8/100) = Level.HighImpairment :=
  ⟨⟨bac_level_sober_iff bac, bac_level_mild_iff bac, bac_level_moderate_iff bac,
    bac_level_high_iff bac, bac_level_severe_iff bac⟩,
   by norm_num [bac_level], by norm_num [bac_level],
   by norm_num [bac_level], by norm_num [bac_level]⟩

/-- Witness for C8 at BAC 0.019999. -/
theorem bac_level_half_open_witness :
    bac_level (19999/1000000) = Level.Sober :=
  (bac_level_half_open (19999/1000000) (by norm_num)).2.1

/-- Claim C9: `add_drink` is total in the drink type; an unknown type with no
overrides resolves to the generic default 5% / 12 oz, and positive explicit
overrides take precedence over both database and default values for every
type string. -/
theorem add_drink_leniency (t : String) (v a : ℚ) (hv : 0 < v) (ha : 0 < a) :
    (drink_database t = none →
      add_drink t none none = { alcohol_percent := 5, volume_oz := 12 }) ∧
    add_drink t (some v) (some a) = { alcohol_percent := a, volume_oz := v } ∧
    (add_drink t (some v) none).volume_oz = v ∧
    (add_drink t none (some a)).alcohol_percent = a := by
  have hv' : (v != 0) = true := by simp [hv.ne']
  have ha' : (a != 0) = true := by simp [ha.ne']
  cases hdb : drink_database t <;>
    simp [add_drink, truthy, hdb, hv', ha']

/-- Witness for C9 at the unknown type string with overrides 10 oz and 7%. -/
theorem add_drink_leniency_witness :
    add_drink ("soda") none none = { alcohol_percent := 5, volume_oz := 12 } ∧
    add_drink ("soda") (some 10) (some 7) = { alcohol_percent := 7, volume_oz := 10 } :=
  ⟨(add_drink_leniency ("soda") 10 7 (by norm_num) (by norm_num)).1 rfl,
   (add_drink_leniency ("soda") 10 7 (by norm_num) (by norm_num)).2.1⟩

/-- Counterexample to claim C5: for the empty drink list (a legitimate drink
list) the estimator is constantly 0, so it is not strictly increasing on
[0, 0.5]. -/
theorem widmark_empty_not_strict :
    calculate_bac_widmark 133 Gender.female [] 0 =
      calculate_bac_widmark 133 Gender.female [] (1/4) ∧
    (0:ℚ) < 1/4 ∧ (1/4:ℚ) ≤ 1/2 := by
  norm_num [calculate_bac_widmark, peak_bac, total_alcohol_grams, List.foldl,
    widmark_factor, female_widmark_factor, weight_grams]

/-- Amended claim C5: when the drink list carries positive total alcohol and
the weight is positive, the estimator is strictly increasing on [0, 0.5] and
strictly decreasing past 0.5 as long as its value is still positive. -/
theorem widmark_monotone_two_phase (w : ℚ) (g : Gender) (drinks : List Drink)
    (hw : 0 < w) (hd : 0 < total_alcohol_grams drinks) :
    (∀ t1 t2 : ℚ, 0 ≤ t1 → t1 < t2 → t2 ≤ 1/2 →
      calculate_bac_widmark w g drinks t1 < calculate_bac_widmark w g drinks t2) ∧
    (∀ t1 t2 : ℚ, 1/2 < t1 → t1 < t2 → 0 < calculate_bac_widmark w g drinks t1 →
      calculate_bac_widmark w g drinks t2 < calculate_bac_widmark w g drinks t1) := by
  have hpb : 0 < peak_bac w g drinks := peak_bac_pos g hw hd
  constructor
  · intro t1 t2 h0 h12 h2
    have ht1 : t1 ≤ 1/2 := le_of_lt (lt_of_lt_of_le h12 h2)
    have hnn1 : (0:ℚ) ≤ peak_bac w g drinks * (t1 / (1/2)) :=
      mul_nonneg hpb.le (div_nonneg h0 (by norm_num))
    have hnn2 : (0:ℚ) ≤ peak_bac w g drinks * (t2 / (1/2)) :=
      mul_nonneg hpb.le (div_nonneg (h0.trans h12.le) (by norm_num))
    simp only [calculate_bac_widmark]
    rw [if_pos ht1, if_pos h2, max_eq_right hnn1, max_eq_right hnn2]
    gcongr
  · intro t1 t2 h1 h12 hpos
    have h1' : ¬ t1 ≤ 1/2 := not_le.mpr h1
    have h2' : ¬ t2 ≤ 1/2 := not_le.mpr (h1.trans h12)
    simp only [calculate_bac_widmark] at hpos ⊢
    rw [if_neg h1'] at hpos
    rw [if_neg h1', if_neg h2']
    have hin : 0 < peak_bac w g drinks - metabolism_rate * (t1 - 1/2) := by
      by_contra hc
      push_neg at hc
      rw [max_eq_left hc] at hpos
      exact lt_irrefl 0 hpos
    rw [max_eq_right hin.le]
    refine max_lt hin ?_
    have hstep : metabolism_rate * (t1 - 1/2) < metabolism_rate * (t2 - 1/2) := by
      have : (0:ℚ) < metabolism_rate := by norm_num [metabolism_rate]
      exact mul_lt_mul_of_pos_left (by linarith) this
    linarith

/-- Witness for the amended C5: one 12oz 5% drink at 133 lbs / female gives a
strictly larger BAC at 0.5 h than at 0.25 h. -/
theorem widmark_monotone_two_phase_witness :
    calculate_bac_widmark 133 Gender.female
        [{ alcohol_percent := 5, volume_oz := 12 }] (1/4) <
      calculate_bac_widmark 133 Gender.female
        [{ alcohol_percent := 5, volume_oz := 12 }] (1/2) :=
  (widmark_monotone_two_phase 133 Gender.female
      [{ alcohol_percent := 5, volume_oz := 12 }] (by norm_num)
      (by norm_num [total_alcohol_grams, List.foldl, alcohol_grams,
        alcohol_ml, volume_ml])).1
    (1/4) (1/2) (by norm_num) (by norm_num) (by norm_num)

/-- Counterexample to claim C6: after raising the alert cooldown to 60
seconds, `reset_session` keeps it at 60, while the initial value is 30 — the
cooldown is not restored to its initial value. -/
theorem reset_keeps_modified_cooldown :
    (reset_session (set_alert_cooldown (initial_state 133 Gender.female) 60)).alert_cooldown = 60 ∧
    (initial_state 133 Gender.female).alert_cooldown = 30 :=
  ⟨rfl, rfl⟩

/-- Amended claim C6: `reset_session` clears the drink log, both histories,
the current BAC, the drink timestamps, and the last alert level and time to
their initial values, while leaving the profile, the running flag — and the
alert cooldown — unchanged; a status snapshot taken right after reports 0
drinks, BAC 0 and the Sober tier. -/
theorem reset_session_frame (st : MonitorState) (now : ℚ) :
    (reset_session st).drinks = [] ∧
    (reset_session st).bac_history = [] ∧
    (reset_session st).sensor_history = [] ∧
    (reset_session st).current_bac = 0 ∧
    (reset_session st).first_drink_time = none ∧
    (reset_session st).last_drink_time = none ∧
    (reset_session st).last_alert_level = none ∧
    (reset_session st).last_alert_time = none ∧
    (reset_session st).alert_cooldown = st.alert_cooldown ∧
    (reset_session st).weight_lbs = st.weight_lbs ∧
    (reset_session st).gender = st.gender ∧
    (reset_session st).is_monitoring = st.is_monitoring ∧
    (get_current_status (reset_session st) now).drinks_count = 0 ∧
    (get_current_status (reset_session st) now).bac = 0 ∧
    (get_current_status (reset_session st) now).level = Level.Sober := by
  refine ⟨rfl, rfl, rfl, rfl, rfl, rfl, rfl, rfl, rfl, rfl, rfl, rfl, rfl, rfl, ?_⟩
  norm_num [get_current_status, reset_session, bac_level]

/-- Claim C10: `check_alerts_manually` returns the monitor state unchanged,
so a subsequent periodic alert evaluation behaves exactly as it would have
without the manual check. -/
theorem manual_check_frame (st : MonitorState) (now : ℚ) :
    (check_alerts_manually st).2 = st ∧
    monitor_check_alerts (check_alerts_manually st).2 now =
      monitor_check_alerts st now :=
  ⟨rfl, rfl⟩

/-- Case analysis of `check_alerts`: the fire condition, the fired-state
update, and the suppressed-state frame. -/
lemma check_alerts_cases (st : AlertState) (now bac : ℚ) :
    ((check_alerts st now bac).1 = true ↔
      (current_alert_level bac).isSome = true ∧
        (current_alert_level bac ≠ st.last_alert_level ∨
         st.last_alert_time = none ∨
         st.alert_cooldown < now - st.last_alert_time.getD 0)) ∧
    ((check_alerts st now bac).1 = true →
      (check_alerts st now bac).2 =
        { last_alert_level := current_alert_level bac
          last_alert_time := some now
          alert_cooldown := st.alert_cooldown }) ∧
    ((check_alerts st now bac).1 = false → (check_alerts st now bac).2 = st) := by
  rcases st with ⟨lvl, lt, cd⟩
  cases hcur : current_alert_level bac with
  | none =>
      by_cases hne : (none : Option AlertLevel) = lvl
      · subst hne
        simp [check_alerts, cooldown_passed, hcur]
      · simp [check_alerts, cooldown_passed, hcur, hne]
  | some l =>
      by_cases hne : (some l : Option AlertLevel) = lvl
      · subst hne
        cases lt with
        | none => simp [check_alerts, cooldown_passed, hcur]
        | some t =>
            by_cases hcd : cd < now - t <;>
              simp [check_alerts, cooldown_passed, hcur, hcd]
      · simp [check_alerts, cooldown_passed, hcur, hne]

/-- Counterexample to claim C3: with last tier `warning` and a BAC of 0.01
(tier none, so the tier changed), the code fires nothing and leaves the
alert state untouched, while the claim requires a fire-and-update on any
tier change, transitions to none included. -/
theorem alert_tier_to_none_suppresses :
    current_alert_level (1/100) ≠
      (AlertState.mk (some AlertLevel.warning) (some 0) 30).last_alert_level ∧
    check_alerts (AlertState.mk (some AlertLevel.warning) (some 0) 30) 100 (1/100) =
      (false, AlertState.mk (some AlertLevel.warning) (some 0) 30) := by
  constructor
  · norm_num [current_alert_level]
    simp
  · norm_num [check_alerts, current_alert_level, cooldown_passed]

/-- Amended claim C3: the throttle fires — and then updates `last_alert_level`
and `last_alert_time` — exactly when the current tier is non-none and either
differs from the last tier, or no alert has fired yet, or the cooldown has
elapsed strictly; otherwise the state is unchanged.  In particular two ticks
10 s apart in the danger tier with a 30 s cooldown fire only on the first,
and a warning-to-danger change fires at any time interval. -/
theorem check_alerts_characterization (st : AlertState) (now bac : ℚ) :
    ((check_alerts st now bac).1 = true ↔
      (current_alert_level bac).isSome = true ∧
        (current_alert_level bac ≠ st.last_alert_level ∨
         st.last_alert_time = none ∨
         st.alert_cooldown < now - st.last_alert_time.getD 0)) ∧
    ((check_alerts st now bac).1 = true →
      (check_alerts st now bac).2 =
        { last_alert_level := current_alert_level bac
          last_alert_time := some now
          alert_cooldown := st.alert_cooldown }) ∧
    ((check_alerts st now bac).1 = false → (check_alerts st now bac).2 = st) ∧
    (check_alerts (AlertState.mk none none 30) 0 (9/100) =
       (true, AlertState.mk (some AlertLevel.danger) (some 0) 30) ∧
     check_alerts (AlertState.mk (some AlertLevel.danger) (some 0) 30) 10 (9/100) =
       (false, AlertState.mk (some AlertLevel.danger) (some 0) 30)) ∧
    ∀ t0 cd now2 : ℚ,
      (check_alerts (AlertState.mk (some AlertLevel.warning) (some t0) cd) now2 (9/100)).1 = true := by
  refine ⟨?_, ?_, ?_, ⟨?_, ?_⟩, ?_⟩
  · exact (check_alerts_cases st now bac).1
  · exact (check_alerts_cases st now bac).2.1
  · exact (check_alerts_cases st now bac).2.2
  · norm_num [check_alerts, current_alert_level, cooldown_passed]
  · norm_num [check_alerts, current_alert_level, cooldown_passed]
  · intro t0 cd now2
    norm_num [check_alerts, current_alert_level, cooldown_passed]
    rw [if_pos (Or.inl (by simp : ¬AlertLevel.danger = AlertLevel.warning))]

/-- Witness for the amended C3: a first danger-tier tick from the initial
alert state fires and stamps the state. -/
theorem check_alerts_characterization_witness :
    (check_alerts (AlertState.mk none none 30) 0 (9/100)).2 =
      AlertState.mk (some AlertLevel.danger) (some 0) 30 := by
  have h := (check_alerts_characterization (AlertState.mk none none 30) 0 (9/100)).2.2.2.1.1
  have hfired : (check_alerts (AlertState.mk none none 30) 0 (9/100)).1 = true := by
    rw [h]
  have h2 := (check_alerts_characterization (AlertState.mk none none 30) 0 (9/100)).2.1 hfired
  rw [h2]
  norm_num [current_alert_level]
